import Mathlib

/-!
# Session context (`common/session/context.go`)

A shallow embedding of the session metadata carrier: the eight private context keys, the
`ContextWith…` / `…FromContext` pairs, the forced-outbound-tag helpers, the error feedback
channel and the write-once outbound IP override.

Modelling conventions.

* A `context.Context` is an immutable chain.  `Context.Value` is the chain walk of the standard
  library: the nearest entry whose key equals the requested key decides, also when the stored
  value is nil.  Handles are non-nil contexts.
* A Go pointer is `Ptr = Option Nat`: `none` is the nil pointer, `some a` the object at address
  `a`.  Objects live in total heaps (`Nat → _`), so a non-nil pointer always has a referent.
* A value of type `any` is an `Any`: the nil interface or a dynamic type together with its value.
* Functions that read or write package variables or pointed-to objects thread a `State`.
  Functions that can panic return an `Except Panic _` next to the state they leave behind.
-/

namespace Session

/-! ## Values -/

/-- A Go pointer: `none` is nil, `some a` points to the object at address `a`. -/
abbrev Ptr := Option Nat

/-- Session identifier, `type ID uint32`. -/
abbrev ID := Nat

/-- A byte slice `net.IP`: `none` is the nil slice, `some bs` a slice holding the bytes `bs`. -/
abbrev IP := Option (List Nat)

/-- Go `len` of a slice; the nil slice has length zero. -/
def IP.len : IP → Nat
  | none => 0
  | some bs => bs.length

/-- Modelled from the spec: the gateway/source address type `net.Address` (an interface that is
declared outside the source file): the nil interface, an IP address or a domain name. -/
inductive Address
  | nil
  | ip (bytes : List Nat)
  | domain (name : String)
  deriving DecidableEq, Repr

/-- Modelled from the spec: the target endpoint of an outbound descriptor (`net.Destination`,
declared outside the source file). -/
structure Destination where
  Address : Address
  Port : Nat
  deriving DecidableEq, Repr

/-- Modelled from the spec: the Outbound descriptor record (the struct is declared outside the
source file): target endpoint and chosen gateway/source address. -/
structure Outbound where
  Target : Destination
  Gateway : Address
  deriving DecidableEq, Repr

/-- Modelled from the spec: the Content facet (the struct is declared outside the source file),
as far as this file uses it: a string-to-string attribute bag whose backing map is created on
first use (`none` is the nil map). -/
structure Content where
  Attributes : Option (List (String × String))
  deriving DecidableEq, Repr

/-- A Go `error` value: `none` is the nil error. -/
abbrev GoError := Option String

/-- A non-nil value of some other dynamic type, as seen through an interface: its identity and
whether its type has the method set of `TrackedRequestErrorFeedback` (`SubmitError(error)`) and
of `routing.Dispatcher`. -/
structure Obj where
  ident : Nat
  hasSubmitError : Bool
  isDispatcher : Bool
  deriving DecidableEq, Repr

/-- An interface value of type `TrackedRequestErrorFeedback`: nil, or a value whose dynamic type
implements `SubmitError`. -/
abbrev TrackedRequestErrorFeedback := Option { o : Obj // o.hasSubmitError = true }

/-- An interface value of type `routing.Dispatcher`: nil, or a value whose dynamic type
implements the dispatcher interface. -/
abbrev Dispatcher := Option { o : Obj // o.isDispatcher = true }

/-- A value of type `any`: the nil interface, or a dynamic type with its value.  Pointer types
carry a possibly nil pointer (a typed nil is not the nil interface). -/
inductive Any
  | nil
  | id (v : ID)
  | inbound (p : Ptr)
  | outbound (p : Ptr)
  | content (p : Ptr)
  | bool (b : Bool)
  | sockopt (p : Ptr)
  | obj (o : Obj)
  deriving DecidableEq, Repr

/-- Conversion of a `TrackedRequestErrorFeedback` interface value to `any`. -/
def Any.ofFeedback : TrackedRequestErrorFeedback → Any
  | none => .nil
  | some o => .obj o.1

/-- Conversion of a `routing.Dispatcher` interface value to `any`. -/
def Any.ofDispatcher : Dispatcher → Any
  | none => .nil
  | some o => .obj o.1

/-! ## Keys -/

/-- The private key type, `type sessionKey int`. -/
abbrev sessionKey := Int

def idSessionKey : sessionKey := 0
def inboundSessionKey : sessionKey := 1
def outboundSessionKey : sessionKey := 2
def contentSessionKey : sessionKey := 3
def muxPreferedSessionKey : sessionKey := 4
def sockoptSessionKey : sessionKey := 5
def trackedConnectionErrorKey : sessionKey := 6
def dispatcherKey : sessionKey := 7

/-- A context key as an interface value: a `sessionKey`, or a key of a type of another
package.  Two keys are equal when dynamic type and value agree. -/
inductive Key
  | session (k : sessionKey)
  | foreign (tag : Nat)
  deriving DecidableEq, Repr

/-! ## Contexts -/

/-- A non-nil `context.Context`: the empty base context, a context derived without a value
(cancellation, deadline), or a value entry over a parent. -/
inductive Context
  | background
  | derived (parent : Context)
  | withValue (parent : Context) (key : Key) (val : Any)
  deriving DecidableEq, Repr

/-- The lookup `ctx.Value(key)`: the value of the nearest entry stored under `key`, the nil
interface when there is none. -/
def Context.Value : Context → Key → Any
  | .background, _ => .nil
  | .derived parent, k => parent.Value k
  | .withValue parent key val, k => if key = k then val else parent.Value k

/-- Whether some entry of the chain is stored under `key`. -/
def Context.hasKey : Context → Key → Bool
  | .background, _ => false
  | .derived parent, k => parent.hasKey k
  | .withValue parent key _, k => key == k || parent.hasKey k

/-! ## State -/

/-- What can go wrong at run time. -/
inductive Panic
  | nilDereference
  | typeAssertion
  deriving DecidableEq, Repr

/-- The mutable world of the package: the two package variables, the objects behind the
`*Outbound` and `*Content` pointers, the allocator of `&Content{}` and the log of the calls made
to `SubmitError` (receiver and argument, oldest first). -/
@[ext]
structure State where
  once : Bool
  outboundIp : IP
  outbounds : Nat → Outbound
  contents : Nat → Content
  nextContent : Nat
  submitted : List (Obj × GoError)

/-- Store `v` at address `a`. -/
def heapSet {α : Type} (h : Nat → α) (a : Nat) (v : α) : Nat → α :=
  fun b => if b = a then v else h b

/-- The assignment `outbound.Gateway = g` through the non-nil pointer to the descriptor at
address `a`: only that field of that descriptor changes. -/
def State.assignGateway (s : State) (a : Nat) (g : Address) : State :=
  { s with outbounds := heapSet s.outbounds a { s.outbounds a with Gateway := g } }

/-! ## The attach / extract pairs -/

/-- ContextWithID returns a new context with the given ID. -/
def ContextWithID (ctx : Context) (id : ID) : Context :=
  .withValue ctx (.session idSessionKey) (.id id)

/-- IDFromContext returns ID in this context, or 0 if not contained. -/
def IDFromContext (ctx : Context) : ID :=
  match ctx.Value (.session idSessionKey) with
  | .id id => id
  | _ => 0

def ContextWithInbound (ctx : Context) (inbound : Ptr) : Context :=
  .withValue ctx (.session inboundSessionKey) (.inbound inbound)

def InboundFromContext (ctx : Context) : Ptr :=
  match ctx.Value (.session inboundSessionKey) with
  | .inbound inbound => inbound
  | _ => none

def ContextWithOutbound (ctx : Context) (outbound : Ptr) : Context :=
  .withValue ctx (.session outboundSessionKey) (.outbound outbound)

/-- The Outbound accessor.  `IPAddress` is `net.IPAddress`, a function of another package.  With
a non-nil, non-empty `outboundIp` the gateway field of the pointed-to descriptor is assigned
through the pointer; through a nil pointer that assignment panics. -/
def OutboundFromContext (IPAddress : IP → Address) (ctx : Context) (s : State) :
    Except Panic Ptr × State :=
  match ctx.Value (.session outboundSessionKey) with
  | .outbound outbound =>
    if s.outboundIp ≠ none ∧ 0 < IP.len s.outboundIp then
      match outbound with
      | none => (.error .nilDereference, s)
      | some a => (.ok (some a), s.assignGateway a (IPAddress s.outboundIp))
    else (.ok outbound, s)
  | _ => (.ok none, s)

def ContextWithContent (ctx : Context) (content : Ptr) : Context :=
  .withValue ctx (.session contentSessionKey) (.content content)

def ContentFromContext (ctx : Context) : Ptr :=
  match ctx.Value (.session contentSessionKey) with
  | .content content => content
  | _ => none

/-- ContextWithMuxPrefered returns a new context with the given bool. -/
def ContextWithMuxPrefered (ctx : Context) (forced : Bool) : Context :=
  .withValue ctx (.session muxPreferedSessionKey) (.bool forced)

/-- MuxPreferedFromContext returns value in this context, or false if not contained. -/
def MuxPreferedFromContext (ctx : Context) : Bool :=
  match ctx.Value (.session muxPreferedSessionKey) with
  | .bool val => val
  | _ => false

/-- ContextWithSockopt returns a new context with Socket configs included. -/
def ContextWithSockopt (ctx : Context) (s : Ptr) : Context :=
  .withValue ctx (.session sockoptSessionKey) (.sockopt s)

/-- SockoptFromContext returns Socket configs in this context, or nil if not contained. -/
def SockoptFromContext (ctx : Context) : Ptr :=
  match ctx.Value (.session sockoptSessionKey) with
  | .sockopt sockopt => sockopt
  | _ => none

/-! ## Forced outbound tag -/

/-- Modelled from the spec: the attribute bag read `get(key)` (`Content.Attribute`, a method
declared outside the source file) on a `*Content` receiver: the stored value, the empty string
when the key or the backing map is absent.  Reading a field through a nil receiver panics. -/
def Content.Attribute (c : Ptr) (name : String) (s : State) : Except Panic String :=
  match c with
  | none => .error .nilDereference
  | some a =>
    match (s.contents a).Attributes with
    | none => .ok ""
    | some m => .ok ((m.lookup name).getD "")

/-- Modelled from the spec: the attribute bag write `set(key, value)` (`Content.SetAttribute`,
a method declared outside the source file): creates the backing map on first use, then stores
the value under the key, replacing an earlier one. -/
def Content.SetAttribute (c : Ptr) (name value : String) (s : State) : Except Panic Unit × State :=
  match c with
  | none => (.error .nilDereference, s)
  | some a =>
    let m := ((s.contents a).Attributes).getD []
    let c := Content.mk (some ((name, value) :: m.filter (fun kv => kv.1 != name)))
    (.ok (), { s with contents := heapSet s.contents a c })

def GetForcedOutboundTagFromContext (ctx : Context) (s : State) : Except Panic String :=
  if ContentFromContext ctx = none then .ok ""
  else Content.Attribute (ContentFromContext ctx) "forcedOutboundTag" s

/-- The allocation `&Content{}`: a fresh zero-valued Content object. -/
def newContent (s : State) : Nat × State :=
  (s.nextContent,
    { s with contents := heapSet s.contents s.nextContent (Content.mk none),
             nextContent := s.nextContent + 1 })

def SetForcedOutboundTagToContext (ctx : Context) (tag : String) (s : State) :
    Except Panic Context × State :=
  let (ctx, s) :=
    if ContentFromContext ctx = none then
      let (a, s) := newContent s
      (ContextWithContent ctx (some a), s)
    else (ctx, s)
  match Content.SetAttribute (ContentFromContext ctx) "forcedOutboundTag" tag s with
  | (.ok _, s) => (.ok ctx, s)
  | (.error e, s) => (.error e, s)

/-! ## Error feedback and dispatcher -/

/-- The call `errorTracker.SubmitError(err)`: its effect belongs to the implementer and is
recorded as one entry of the call log. -/
def SubmitOutboundErrorToOriginator (ctx : Context) (err : GoError) (s : State) :
    Except Panic Unit × State :=
  match ctx.Value (.session trackedConnectionErrorKey) with
  | .nil => (.ok (), s)
  | .obj o =>
    if o.hasSubmitError then (.ok (), { s with submitted := s.submitted ++ [(o, err)] })
    else (.error .typeAssertion, s)
  | _ => (.error .typeAssertion, s)

def TrackedConnectionError (ctx : Context) (tracker : TrackedRequestErrorFeedback) : Context :=
  .withValue ctx (.session trackedConnectionErrorKey) (Any.ofFeedback tracker)

def ContextWithDispatcher (ctx : Context) (dispatcher : Dispatcher) : Context :=
  .withValue ctx (.session dispatcherKey) (Any.ofDispatcher dispatcher)

def DispatcherFromContext (ctx : Context) : Dispatcher :=
  match ctx.Value (.session dispatcherKey) with
  | .obj o => if h : o.isDispatcher = true then some ⟨o, h⟩ else none
  | _ => none

/-! ## Outbound IP override -/

/-- SetOutboundIp can only be set once: `once.Do` runs the assignment on the first call only. -/
def SetOutboundIp (ip : IP) (s : State) : State :=
  if s.once then s else { s with outboundIp := ip, once := true }

/-! ## Attachments as data -/

/-- The eight facets of a session handle. -/
inductive Facet
  | identifier
  | inbound
  | outbound
  | content
  | muxPrefered
  | sockopt
  | errorFeedback
  | dispatcher
  deriving DecidableEq, Repr

/-- One call of an attach function of the package, with its argument. -/
inductive Attachment
  | identifier (id : ID)
  | inbound (p : Ptr)
  | outbound (p : Ptr)
  | content (p : Ptr)
  | muxPrefered (forced : Bool)
  | sockopt (p : Ptr)
  | errorFeedback (tracker : TrackedRequestErrorFeedback)
  | dispatcher (d : Dispatcher)
  deriving DecidableEq, Repr

/-- The facet an attachment writes. -/
def Attachment.facet : Attachment → Facet
  | .identifier _ => .identifier
  | .inbound _ => .inbound
  | .outbound _ => .outbound
  | .content _ => .content
  | .muxPrefered _ => .muxPrefered
  | .sockopt _ => .sockopt
  | .errorFeedback _ => .errorFeedback
  | .dispatcher _ => .dispatcher

/-- Run the attach function the attachment stands for. -/
def Attachment.apply (a : Attachment) (ctx : Context) : Context :=
  match a with
  | .identifier id => ContextWithID ctx id
  | .inbound p => ContextWithInbound ctx p
  | .outbound p => ContextWithOutbound ctx p
  | .content p => ContextWithContent ctx p
  | .muxPrefered forced => ContextWithMuxPrefered ctx forced
  | .sockopt p => ContextWithSockopt ctx p
  | .errorFeedback tracker => TrackedConnectionError ctx tracker
  | .dispatcher d => ContextWithDispatcher ctx d

/-- The key under which a facet is stored. -/
def Facet.key : Facet → Key
  | .identifier => .session idSessionKey
  | .inbound => .session inboundSessionKey
  | .outbound => .session outboundSessionKey
  | .content => .session contentSessionKey
  | .muxPrefered => .session muxPreferedSessionKey
  | .sockopt => .session sockoptSessionKey
  | .errorFeedback => .session trackedConnectionErrorKey
  | .dispatcher => .session dispatcherKey

/-- A state for the examples: nothing set, every descriptor with port 80 and an IP gateway. -/
def exampleState : State where
  once := false
  outboundIp := none
  outbounds := fun _ => { Target := { Address := .domain "example.org", Port := 80 },
                          Gateway := .ip [192, 168, 0, 1] }
  contents := fun _ => { Attributes := none }
  nextContent := 0
  submitted := []

/-- A stand-in for `net.IPAddress` in the examples. -/
def exampleIPAddress : IP → Address
  | none => .nil
  | some bs => .ip bs

/-! ## Handles in memory

A `context.Context` value is a pointer to a context object.  `context.WithValue` allocates a new
object that points to its parent; the objects allocated before stay where they are. -/

/-- A context object: a derived context without a value, or a value entry. -/
inductive Node
  | derived (parent : Option Nat)
  | value (parent : Option Nat) (key : Key) (val : Any)
  deriving DecidableEq, Repr

/-- The context objects allocated so far, newest first: the object at address `i` is the one
before which `i` objects were allocated. -/
abbrev Memory := List Node

/-- A handle: `none` is the background context, `some i` the context object at address `i`. -/
abbrev Handle := Option Nat

/-- A handle is valid when it refers to an allocated object (Go has no dangling pointers). -/
def Memory.valid (m : Memory) : Handle → Bool
  | none => true
  | some i => decide (i < m.length)

/-- The chain a handle stands for, read from memory. -/
def Memory.context : Memory → Handle → Context
  | _, none => .background
  | [], some _ => .background
  | nd :: rest, some i =>
    if i = rest.length then
      match nd with
      | .derived parent => .derived (Memory.context rest parent)
      | .value parent key val => .withValue (Memory.context rest parent) key val
    else Memory.context rest (some i)

/-- The allocation `&valueCtx{parent, key, val}` made by `context.WithValue`: the new object gets
the next address, the memory before it is kept. -/
def Memory.WithValue (m : Memory) (parent : Handle) (key : Key) (val : Any) : Handle × Memory :=
  (some m.length, .value parent key val :: m)

/-- The value an attachment stores, converted to `any`. -/
def Attachment.val : Attachment → Any
  | .identifier id => .id id
  | .inbound p => .inbound p
  | .outbound p => .outbound p
  | .content p => .content p
  | .muxPrefered forced => .bool forced
  | .sockopt p => .sockopt p
  | .errorFeedback tracker => Any.ofFeedback tracker
  | .dispatcher d => Any.ofDispatcher d

/-- An attach function run on a handle in memory: one call of `context.WithValue` with the key
of the facet and the value. -/
def Attachment.applyIn (a : Attachment) (parent : Handle) (m : Memory) : Handle × Memory :=
  m.WithValue parent a.facet.key a.val

/-! ## Building handles -/

/-- Run a sequence of attach functions, the first of the list first. -/
def Attachment.applyAll (as : List Attachment) (ctx : Context) : Context :=
  as.foldl (fun c a => a.apply c) ctx

/-- One step in the life of a handle: an attach function of the package, the tag write (which
may attach a Content), a derivation by the standard library that stores no value, or a value
stored by another package under a key of its own. -/
inductive BuildStep
  | attach (a : Attachment)
  | setForcedOutboundTag (tag : String)
  | derive
  | foreignValue (tag : Nat) (val : Any)
  deriving DecidableEq, Repr

/-- Run one step on a handle and the state; the new handle replaces the old one. -/
def BuildStep.run : BuildStep → Context × State → Context × State
  | .attach a, (ctx, s) => (a.apply ctx, s)
  | .setForcedOutboundTag tag, (ctx, s) =>
    match SetForcedOutboundTagToContext ctx tag s with
    | (.ok ctx', s') => (ctx', s')
    | (.error _, s') => (ctx, s')
  | .derive, (ctx, s) => (.derived ctx, s)
  | .foreignValue tag val, (ctx, s) => (.withValue ctx (.foreign tag) val, s)

/-- Run a sequence of steps, the first of the list first. -/
def BuildStep.runAll (steps : List BuildStep) (start : Context × State) : Context × State :=
  steps.foldl (fun cs st => st.run cs) start

/-- The values on which the submit operation does not fail: the nil interface (nothing to
call) and a value whose dynamic type implements `TrackedRequestErrorFeedback`. -/
def Any.isFeedbackOrNil : Any → Bool
  | .nil => true
  | .obj o => o.hasSubmitError
  | _ => false

/-- The package variables are consistent: as long as `once` has not fired, `outboundIp` still
holds its zero value, the nil slice (the assignment inside `once.Do` is its only writer). -/
def State.Consistent (s : State) : Prop :=
  s.once = false → s.outboundIp = none

/-! ## Lookup lemmas -/

theorem Context.value_of_hasKey_false (ctx : Context) (k : Key) (h : ctx.hasKey k = false) :
    ctx.Value k = .nil := by
  induction ctx with
  | background => rfl
  | derived parent ih => exact ih h
  | withValue parent key val ih =>
    simp only [Context.hasKey, Bool.or_eq_false_iff, beq_eq_false_iff_ne, ne_eq] at h
    simp only [Context.Value, h.1, if_false]
    exact ih h.2

/-! ## Attach then extract -/

/-- C1: for every handle `h`, whatever it already carries, and every value, attaching the value
and extracting the same facet returns exactly that value, for the Identifier, Inbound, Content,
MuxPrefered, Sockopt and Dispatcher pairs. -/
theorem attach_then_extract (h : Context) :
    (∀ v : ID, IDFromContext (ContextWithID h v) = v) ∧
    (∀ p : Ptr, InboundFromContext (ContextWithInbound h p) = p) ∧
    (∀ p : Ptr, ContentFromContext (ContextWithContent h p) = p) ∧
    (∀ b : Bool, MuxPreferedFromContext (ContextWithMuxPrefered h b) = b) ∧
    (∀ p : Ptr, SockoptFromContext (ContextWithSockopt h p) = p) ∧
    (∀ d : Dispatcher, DispatcherFromContext (ContextWithDispatcher h d) = d) := by
  refine ⟨?_, ?_, ?_, ?_, ?_, ?_⟩
  · intro v; simp [IDFromContext, ContextWithID, Context.Value]
  · intro p; simp [InboundFromContext, ContextWithInbound, Context.Value]
  · intro p; simp [ContentFromContext, ContextWithContent, Context.Value]
  · intro b; simp [MuxPreferedFromContext, ContextWithMuxPrefered, Context.Value]
  · intro p; simp [SockoptFromContext, ContextWithSockopt, Context.Value]
  · intro d
    cases d with
    | none => simp [DispatcherFromContext, ContextWithDispatcher, Context.Value, Any.ofDispatcher]
    | some o =>
      obtain ⟨o, ho⟩ := o
      simp [DispatcherFromContext, ContextWithDispatcher, Context.Value, Any.ofDispatcher, ho]

/-- C2: on a handle that has no entry under a facet's key, whatever else it carries, the
extraction of that facet returns the absent value: 0 for the identifier, false for the mux
preference, nil for Inbound, Outbound (in every state, which it leaves untouched), Content,
Sockopt and Dispatcher. -/
theorem extract_absent (IPAddress : IP → Address) (ctx : Context) (s : State) :
    (ctx.hasKey (.session idSessionKey) = false → IDFromContext ctx = 0) ∧
    (ctx.hasKey (.session muxPreferedSessionKey) = false → MuxPreferedFromContext ctx = false) ∧
    (ctx.hasKey (.session inboundSessionKey) = false → InboundFromContext ctx = none) ∧
    (ctx.hasKey (.session outboundSessionKey) = false →
      OutboundFromContext IPAddress ctx s = (.ok none, s)) ∧
    (ctx.hasKey (.session contentSessionKey) = false → ContentFromContext ctx = none) ∧
    (ctx.hasKey (.session sockoptSessionKey) = false → SockoptFromContext ctx = none) ∧
    (ctx.hasKey (.session dispatcherKey) = false → DispatcherFromContext ctx = none) := by
  refine ⟨?_, ?_, ?_, ?_, ?_, ?_, ?_⟩ <;> intro h
  · simp [IDFromContext, Context.value_of_hasKey_false ctx _ h]
  · simp [MuxPreferedFromContext, Context.value_of_hasKey_false ctx _ h]
  · simp [InboundFromContext, Context.value_of_hasKey_false ctx _ h]
  · simp [OutboundFromContext, Context.value_of_hasKey_false ctx _ h]
  · simp [ContentFromContext, Context.value_of_hasKey_false ctx _ h]
  · simp [SockoptFromContext, Context.value_of_hasKey_false ctx _ h]
  · simp [DispatcherFromContext, Context.value_of_hasKey_false ctx _ h]

/-- Witness for C2: a handle carrying a foreign entry and an error feedback sink, but none of
the seven facets read here. -/
theorem extract_absent_witness :
    IDFromContext
        (TrackedConnectionError (.withValue .background (.foreign 3) (.bool true)) none) = 0 ∧
    MuxPreferedFromContext
        (TrackedConnectionError (.withValue .background (.foreign 3) (.bool true)) none) = false ∧
    OutboundFromContext exampleIPAddress
        (TrackedConnectionError (.withValue .background (.foreign 3) (.bool true)) none)
        exampleState = (.ok none, exampleState) :=
  ⟨(extract_absent exampleIPAddress _ exampleState).1 (by decide),
   (extract_absent exampleIPAddress _ exampleState).2.1 (by decide),
   (extract_absent exampleIPAddress _ exampleState).2.2.2.1 (by decide)⟩

/-! ## Distinct facets do not disturb each other -/

/-- The eight session keys are pairwise distinct: distinct facets have distinct keys. -/
theorem Facet.key_injective (f g : Facet) (h : f.key = g.key) : f = g := by
  cases f <;> cases g <;> first | rfl | (exact absurd h (by decide))

/-- Every attach function stores one entry, under the key of its facet. -/
theorem Attachment.apply_eq (a : Attachment) (ctx : Context) :
    ∃ val, a.apply ctx = .withValue ctx a.facet.key val := by
  cases a <;> exact ⟨_, rfl⟩

/-- An attachment leaves the lookup under the key of every other facet as it was. -/
theorem Attachment.value_apply_of_ne (a : Attachment) (f : Facet) (hne : a.facet ≠ f)
    (ctx : Context) : (a.apply ctx).Value f.key = ctx.Value f.key := by
  obtain ⟨val, hval⟩ := a.apply_eq ctx
  have hk : a.facet.key ≠ f.key := fun h => hne (Facet.key_injective _ _ h)
  rw [hval]
  simp only [Context.Value, hk, if_false]

/-- Attaching another facet afterwards preserves the facet attached first.  For every handle
`h`, every state and every attachment `a2`, and for each of the eight facets `F1` other than the
facet of `a2`: extracting `F1` from `a2 (attach F1 h v1)` yields `v1`.  For the error feedback
facet the extraction is the lookup made by the submit operation, which calls exactly the sink
`v1`.  For Outbound the extraction behaves exactly as on `attach F1 h v1`, and it returns `v1`
for every descriptor `v1`, and for the nil pointer while no override is in force; in the
remaining case, a nil descriptor under an override, the accessor panics. -/
theorem attach_other_preserves (IPAddress : IP → Address) (h : Context) (s : State)
    (a2 : Attachment) :
    (a2.facet ≠ .identifier → ∀ v : ID, IDFromContext (a2.apply (ContextWithID h v)) = v) ∧
    (a2.facet ≠ .inbound → ∀ p : Ptr, InboundFromContext (a2.apply (ContextWithInbound h p)) = p) ∧
    (a2.facet ≠ .outbound → ∀ p : Ptr,
      OutboundFromContext IPAddress (a2.apply (ContextWithOutbound h p)) s
          = OutboundFromContext IPAddress (ContextWithOutbound h p) s ∧
      (∀ a : Nat, p = some a →
        (OutboundFromContext IPAddress (a2.apply (ContextWithOutbound h p)) s).1 = .ok (some a)) ∧
      (¬ (s.outboundIp ≠ none ∧ 0 < IP.len s.outboundIp) →
        OutboundFromContext IPAddress (a2.apply (ContextWithOutbound h p)) s = (.ok p, s))) ∧
    (a2.facet ≠ .content → ∀ p : Ptr, ContentFromContext (a2.apply (ContextWithContent h p)) = p) ∧
    (a2.facet ≠ .muxPrefered → ∀ b : Bool,
      MuxPreferedFromContext (a2.apply (ContextWithMuxPrefered h b)) = b) ∧
    (a2.facet ≠ .sockopt → ∀ p : Ptr, SockoptFromContext (a2.apply (ContextWithSockopt h p)) = p) ∧
    (a2.facet ≠ .errorFeedback → ∀ (t : TrackedRequestErrorFeedback) (err : GoError),
      (a2.apply (TrackedConnectionError h t)).Value (.session trackedConnectionErrorKey)
          = Any.ofFeedback t ∧
      (t = none →
        SubmitOutboundErrorToOriginator (a2.apply (TrackedConnectionError h t)) err s
          = (.ok (), s)) ∧
      (∀ o, t = some o →
        SubmitOutboundErrorToOriginator (a2.apply (TrackedConnectionError h t)) err s
          = (.ok (), { s with submitted := s.submitted ++ [(o.1, err)] }))) ∧
    (a2.facet ≠ .dispatcher → ∀ d : Dispatcher,
      DispatcherFromContext (a2.apply (ContextWithDispatcher h d)) = d) := by
  refine ⟨?_, ?_, ?_, ?_, ?_, ?_, ?_, ?_⟩ <;> intro hne
  · intro v
    have hv := a2.value_apply_of_ne .identifier hne (ContextWithID h v)
    simp only [Facet.key] at hv
    rw [IDFromContext, hv]
    simp [ContextWithID, Context.Value]
  · intro p
    have hv := a2.value_apply_of_ne .inbound hne (ContextWithInbound h p)
    simp only [Facet.key] at hv
    rw [InboundFromContext, hv]
    simp [ContextWithInbound, Context.Value]
  · intro p
    have hv := a2.value_apply_of_ne .outbound hne (ContextWithOutbound h p)
    simp only [Facet.key] at hv
    refine ⟨?_, ?_, ?_⟩
    · rw [OutboundFromContext, hv, OutboundFromContext]
    · intro a ha
      subst ha
      rw [OutboundFromContext, hv]
      simp only [ContextWithOutbound, Context.Value, if_true]
      split <;> rfl
    · intro hno
      rw [OutboundFromContext, hv]
      simp only [ContextWithOutbound, Context.Value, if_true, hno, if_false]
  · intro p
    have hv := a2.value_apply_of_ne .content hne (ContextWithContent h p)
    simp only [Facet.key] at hv
    rw [ContentFromContext, hv]
    simp [ContextWithContent, Context.Value]
  · intro b
    have hv := a2.value_apply_of_ne .muxPrefered hne (ContextWithMuxPrefered h b)
    simp only [Facet.key] at hv
    rw [MuxPreferedFromContext, hv]
    simp [ContextWithMuxPrefered, Context.Value]
  · intro p
    have hv := a2.value_apply_of_ne .sockopt hne (ContextWithSockopt h p)
    simp only [Facet.key] at hv
    rw [SockoptFromContext, hv]
    simp [ContextWithSockopt, Context.Value]
  · intro t err
    have hv := a2.value_apply_of_ne .errorFeedback hne (TrackedConnectionError h t)
    simp only [Facet.key] at hv
    refine ⟨?_, ?_, ?_⟩
    · rw [hv]
      simp [TrackedConnectionError, Context.Value]
    · intro ht
      subst ht
      rw [SubmitOutboundErrorToOriginator, hv]
      simp [TrackedConnectionError, Context.Value, Any.ofFeedback]
    · intro o ht
      subst ht
      obtain ⟨o, ho⟩ := o
      rw [SubmitOutboundErrorToOriginator, hv]
      simp [TrackedConnectionError, Context.Value, Any.ofFeedback, ho]
  · intro d
    have hv := a2.value_apply_of_ne .dispatcher hne (ContextWithDispatcher h d)
    simp only [Facet.key] at hv
    rw [DispatcherFromContext, hv]
    cases d with
    | none => simp [ContextWithDispatcher, Context.Value, Any.ofDispatcher]
    | some o =>
      obtain ⟨o, ho⟩ := o
      simp [ContextWithDispatcher, Context.Value, Any.ofDispatcher, ho]

/-- An instance of `attach_other_preserves`: a mux preference attached after an identifier,
after an Outbound descriptor and after an error feedback sink. -/
theorem attach_other_preserves_witness :
    IDFromContext ((Attachment.muxPrefered true).apply (ContextWithID .background 7)) = 7 ∧
    (OutboundFromContext exampleIPAddress
        ((Attachment.muxPrefered true).apply (ContextWithOutbound .background (some 4)))
        exampleState).1 = .ok (some 4) ∧
    SubmitOutboundErrorToOriginator
        ((Attachment.muxPrefered true).apply
          (TrackedConnectionError .background (some ⟨⟨1, true, false⟩, rfl⟩)))
        (some "dial failed") exampleState
      = (.ok (), { exampleState with
          submitted := exampleState.submitted ++ [(⟨1, true, false⟩, some "dial failed")] }) :=
  ⟨(attach_other_preserves exampleIPAddress .background exampleState (.muxPrefered true)).1
      (by decide) 7,
   ((attach_other_preserves exampleIPAddress .background exampleState (.muxPrefered true)).2.2.1
      (by decide) (some 4)).2.1 4 rfl,
   ((attach_other_preserves exampleIPAddress .background exampleState
      (.muxPrefered true)).2.2.2.2.2.2.1 (by decide)
      (some ⟨⟨1, true, false⟩, rfl⟩) (some "dial failed")).2.2 _ rfl⟩

/-- C3, failing input: with the override 127.0.0.1 set, a nil Outbound descriptor attached
first and a mux preference attached after it, extracting Outbound does not yield the nil
descriptor attached: the accessor panics with a nil dereference.  The keys do not collide here
(the lookup still finds the nil descriptor); the extraction itself fails on it. -/
theorem attach_other_outbound_nil_panics :
    ((Attachment.muxPrefered true).apply (ContextWithOutbound .background none)).Value
        (.session outboundSessionKey) = .outbound none ∧
    OutboundFromContext exampleIPAddress
        ((Attachment.muxPrefered true).apply (ContextWithOutbound .background none))
        (SetOutboundIp (some [127, 0, 0, 1]) exampleState)
      = (.error .nilDereference, SetOutboundIp (some [127, 0, 0, 1]) exampleState) ∧
    (OutboundFromContext exampleIPAddress
        ((Attachment.muxPrefered true).apply (ContextWithOutbound .background none))
        (SetOutboundIp (some [127, 0, 0, 1]) exampleState)).1 ≠ .ok none := by
  refine ⟨by decide, rfl, ?_⟩
  have h : (OutboundFromContext exampleIPAddress
      ((Attachment.muxPrefered true).apply (ContextWithOutbound .background none))
      (SetOutboundIp (some [127, 0, 0, 1]) exampleState)).1 = .error .nilDereference := rfl
  rw [h]
  intro hc
  cases hc

/-! ## The outbound IP override -/

theorem heapSet_same {α : Type} (h : Nat → α) (a : Nat) (v : α) : heapSet h a v a = v := by
  simp [heapSet]

theorem heapSet_other {α : Type} (h : Nat → α) (a b : Nat) (v : α) (hb : b ≠ a) :
    heapSet h a v b = h b := by
  simp [heapSet, hb]

/-- The consistency of the package variables is kept by `SetOutboundIp`. -/
theorem SetOutboundIp_consistent (ip : IP) (s : State) (hs : s.Consistent) :
    (SetOutboundIp ip s).Consistent := by
  unfold SetOutboundIp
  split
  · exact hs
  · intro h; simp at h

/-- A call of `SetOutboundIp` after the first changes nothing. -/
theorem SetOutboundIp_of_once (ip : IP) (s : State) (h : s.once = true) :
    SetOutboundIp ip s = s := by
  simp [SetOutboundIp, h]

theorem SetOutboundIp_once (ip : IP) (s : State) : (SetOutboundIp ip s).once = true := by
  unfold SetOutboundIp
  split
  · assumption
  · rfl

theorem SetOutboundIp_foldl_of_once (ys : List IP) (s : State) (h : s.once = true) :
    ys.foldl (fun st y => SetOutboundIp y st) s = s := by
  induction ys with
  | nil => rfl
  | cons y ys ih => simp only [List.foldl_cons, SetOutboundIp_of_once y s h, ih]

/-- What the Outbound accessor does on a handle whose nearest Outbound entry is the descriptor
at address `a`, under a non-nil, non-empty override. -/
theorem OutboundFromContext_override (IPAddress : IP → Address) (ctx : Context) (s : State)
    (a : Nat) (X : List Nat) (hctx : ctx.Value (.session outboundSessionKey) = .outbound (some a))
    (hip : s.outboundIp = some X) (hX : X ≠ []) :
    OutboundFromContext IPAddress ctx s
      = (.ok (some a), s.assignGateway a (IPAddress (some X))) := by
  have hlen : 0 < IP.len (some X) := List.length_pos.mpr hX
  simp [OutboundFromContext, hctx, hip, hlen]

/-- What the Outbound accessor does while the override is nil or empty: it returns the stored
pointer and writes nothing. -/
theorem OutboundFromContext_no_override (IPAddress : IP → Address) (ctx : Context) (s : State)
    (p : Ptr) (hctx : ctx.Value (.session outboundSessionKey) = .outbound p)
    (hip : ¬ (s.outboundIp ≠ none ∧ 0 < IP.len s.outboundIp)) :
    OutboundFromContext IPAddress ctx s = (.ok p, s) := by
  simp only [OutboundFromContext, hctx, hip, if_false]

/-- C5: while `SetOutboundIp` has never been called, extracting Outbound from a handle on which
the descriptor at `a`, with target `T` and gateway `G`, was just attached returns that
descriptor, with gateway `G` and target `T`, and writes nothing. -/
theorem outbound_gateway_without_override (IPAddress : IP → Address) (h : Context) (s : State)
    (a : Nat) (T : Destination) (G : Address) (hs : s.Consistent) (hnever : s.once = false)
    (hT : (s.outbounds a).Target = T) (hG : (s.outbounds a).Gateway = G) :
    (OutboundFromContext IPAddress (ContextWithOutbound h (some a)) s).1 = .ok (some a) ∧
    ((OutboundFromContext IPAddress (ContextWithOutbound h (some a)) s).2.outbounds a).Gateway = G ∧
    ((OutboundFromContext IPAddress (ContextWithOutbound h (some a)) s).2.outbounds a).Target = T ∧
    (OutboundFromContext IPAddress (ContextWithOutbound h (some a)) s).2 = s := by
  have hip : ¬ (s.outboundIp ≠ none ∧ 0 < IP.len s.outboundIp) := by
    simp [hs hnever]
  have hctx : (ContextWithOutbound h (some a)).Value (.session outboundSessionKey)
      = .outbound (some a) := by simp [ContextWithOutbound, Context.Value]
  rw [OutboundFromContext_no_override IPAddress _ s _ hctx hip]
  exact ⟨rfl, hG, hT, rfl⟩

/-- Witness for C5. -/
theorem outbound_gateway_without_override_witness :
    (OutboundFromContext exampleIPAddress (ContextWithOutbound .background (some 3))
        exampleState).1 = .ok (some 3) ∧
    ((OutboundFromContext exampleIPAddress (ContextWithOutbound .background (some 3))
        exampleState).2.outbounds 3).Gateway = .ip [192, 168, 0, 1] ∧
    ((OutboundFromContext exampleIPAddress (ContextWithOutbound .background (some 3))
        exampleState).2.outbounds 3).Target = ⟨.domain "example.org", 80⟩ ∧
    (OutboundFromContext exampleIPAddress (ContextWithOutbound .background (some 3))
        exampleState).2 = exampleState :=
  outbound_gateway_without_override exampleIPAddress .background exampleState 3
    ⟨.domain "example.org", 80⟩ (.ip [192, 168, 0, 1]) (fun _ => rfl) rfl rfl rfl

/-- C6: after a first call `SetOutboundIp(X)` with a non-nil, non-empty `X`, extracting Outbound
from a handle on which the descriptor at `a`, with target `T`, was just attached returns that
descriptor with gateway `IPAddress X` and target still `T`: it is the attached descriptor with
only the gateway field replaced. -/
theorem outbound_gateway_with_override (IPAddress : IP → Address) (h : Context) (s : State)
    (a : Nat) (T : Destination) (X : List Nat) (hX : X ≠ [])
    (hfirst : s.once = false) (hT : (s.outbounds a).Target = T) :
    (OutboundFromContext IPAddress (ContextWithOutbound h (some a))
        (SetOutboundIp (some X) s)).1 = .ok (some a) ∧
    ((OutboundFromContext IPAddress (ContextWithOutbound h (some a))
        (SetOutboundIp (some X) s)).2.outbounds a).Gateway = IPAddress (some X) ∧
    ((OutboundFromContext IPAddress (ContextWithOutbound h (some a))
        (SetOutboundIp (some X) s)).2.outbounds a).Target = T ∧
    (OutboundFromContext IPAddress (ContextWithOutbound h (some a))
        (SetOutboundIp (some X) s)).2.outbounds a
      = { s.outbounds a with Gateway := IPAddress (some X) } := by
  have hctx : (ContextWithOutbound h (some a)).Value (.session outboundSessionKey)
      = .outbound (some a) := by simp [ContextWithOutbound, Context.Value]
  have hip : (SetOutboundIp (some X) s).outboundIp = some X := by
    simp [SetOutboundIp, hfirst]
  have hout : (SetOutboundIp (some X) s).outbounds = s.outbounds := by
    simp [SetOutboundIp, hfirst]
  rw [OutboundFromContext_override IPAddress _ _ a X hctx hip hX]
  simp [State.assignGateway, heapSet, hout, hT]

/-- Witness for C6. -/
theorem outbound_gateway_with_override_witness :
    (OutboundFromContext exampleIPAddress (ContextWithOutbound .background (some 3))
        (SetOutboundIp (some [10, 0, 0, 1]) exampleState)).1 = .ok (some 3) ∧
    ((OutboundFromContext exampleIPAddress (ContextWithOutbound .background (some 3))
        (SetOutboundIp (some [10, 0, 0, 1]) exampleState)).2.outbounds 3).Gateway
      = exampleIPAddress (some [10, 0, 0, 1]) ∧
    ((OutboundFromContext exampleIPAddress (ContextWithOutbound .background (some 3))
        (SetOutboundIp (some [10, 0, 0, 1]) exampleState)).2.outbounds 3).Target
      = ⟨.domain "example.org", 80⟩ ∧
    (OutboundFromContext exampleIPAddress (ContextWithOutbound .background (some 3))
        (SetOutboundIp (some [10, 0, 0, 1]) exampleState)).2.outbounds 3
      = { exampleState.outbounds 3 with Gateway := exampleIPAddress (some [10, 0, 0, 1]) } :=
  outbound_gateway_with_override exampleIPAddress .background exampleState 3
    ⟨.domain "example.org", 80⟩ [10, 0, 0, 1] (by decide) rfl rfl

/-- C7: the override is write-once.  From a state in which `SetOutboundIp` was never called,
after a first call with `X` and any further calls `ys` the whole state is what the first call
left, so the stored override is `X`.  In particular after `SetOutboundIp(X)` and then
`SetOutboundIp(Y)` the Outbound accessor behaves exactly as after `SetOutboundIp(X)` alone, and
for a non-empty `X` it returns the attached descriptor with gateway `IPAddress X`. -/
theorem override_write_once (IPAddress : IP → Address) (s : State) (X : IP) (ys : List IP)
    (hfirst : s.once = false) :
    (ys.foldl (fun st y => SetOutboundIp y st) (SetOutboundIp X s)).outboundIp = X ∧
    ys.foldl (fun st y => SetOutboundIp y st) (SetOutboundIp X s) = SetOutboundIp X s ∧
    (∀ (Y : IP) (ctx : Context),
      OutboundFromContext IPAddress ctx (SetOutboundIp Y (SetOutboundIp X s))
        = OutboundFromContext IPAddress ctx (SetOutboundIp X s)) ∧
    (∀ (Y : IP) (h : Context) (a : Nat), X ≠ none → 0 < IP.len X →
      (OutboundFromContext IPAddress (ContextWithOutbound h (some a))
          (SetOutboundIp Y (SetOutboundIp X s))).1 = .ok (some a) ∧
      ((OutboundFromContext IPAddress (ContextWithOutbound h (some a))
          (SetOutboundIp Y (SetOutboundIp X s))).2.outbounds a).Gateway = IPAddress X) := by
  have honce := SetOutboundIp_once X s
  have hfold := SetOutboundIp_foldl_of_once ys _ honce
  have hip : (SetOutboundIp X s).outboundIp = X := by simp [SetOutboundIp, hfirst]
  refine ⟨by rw [hfold, hip], hfold, ?_, ?_⟩
  · intro Y ctx
    rw [SetOutboundIp_of_once Y _ honce]
  · intro Y h a hne hlen
    rw [SetOutboundIp_of_once Y _ honce]
    cases X with
    | none => exact absurd rfl hne
    | some bs =>
      have hbs : bs ≠ [] := List.length_pos.mp hlen
      have hctx : (ContextWithOutbound h (some a)).Value (.session outboundSessionKey)
          = .outbound (some a) := by simp [ContextWithOutbound, Context.Value]
      rw [OutboundFromContext_override IPAddress _ _ a bs hctx hip hbs]
      simp [State.assignGateway, heapSet]

/-- Witness for C7: a first call with 10.0.0.1, then calls with 10.0.0.2, nil and 10.0.0.3; and
an extraction after the calls with 10.0.0.1 and then 10.0.0.2. -/
theorem override_write_once_witness :
    ([some [10, 0, 0, 2], none, some [10, 0, 0, 3]].foldl (fun st y => SetOutboundIp y st)
        (SetOutboundIp (some [10, 0, 0, 1]) exampleState)).outboundIp = some [10, 0, 0, 1] ∧
    ((OutboundFromContext exampleIPAddress (ContextWithOutbound .background (some 3))
        (SetOutboundIp (some [10, 0, 0, 2])
          (SetOutboundIp (some [10, 0, 0, 1]) exampleState))).2.outbounds 3).Gateway
      = exampleIPAddress (some [10, 0, 0, 1]) :=
  ⟨(override_write_once exampleIPAddress exampleState (some [10, 0, 0, 1])
      [some [10, 0, 0, 2], none, some [10, 0, 0, 3]] rfl).1,
   ((override_write_once exampleIPAddress exampleState (some [10, 0, 0, 1]) [] rfl).2.2.2
      (some [10, 0, 0, 2]) .background 3 (by decide) (by decide)).2⟩

/-- C8, as stated, fails: with the override 10.0.0.1 in force, one call of the Outbound accessor
on a handle carrying the descriptor at address 0 (gateway 192.168.0.1) changes the gateway
stored in that descriptor. -/
theorem outbound_extract_rewrites_stored :
    ((OutboundFromContext exampleIPAddress (ContextWithOutbound .background (some 0))
        (SetOutboundIp (some [10, 0, 0, 1]) exampleState)).2.outbounds 0).Gateway
      = .ip [10, 0, 0, 1] ∧
    ((SetOutboundIp (some [10, 0, 0, 1]) exampleState).outbounds 0).Gateway
      = .ip [192, 168, 0, 1] ∧
    ((OutboundFromContext exampleIPAddress (ContextWithOutbound .background (some 0))
        (SetOutboundIp (some [10, 0, 0, 1]) exampleState)).2.outbounds 0)
      ≠ (SetOutboundIp (some [10, 0, 0, 1]) exampleState).outbounds 0 := by
  refine ⟨by decide, by decide, by decide⟩

/-- C8, amended: under a non-nil, non-empty override `X` the Outbound accessor, called on a
handle whose Outbound entry is the descriptor at `a`, returns that same descriptor (the stored
pointer) after assigning `IPAddress X` to its gateway field in place: afterwards the stored
descriptor has gateway `IPAddress X` for every holder, its target is unchanged, every other
descriptor is unchanged, and so are the package variables, the contents and the call log. -/
theorem outbound_extract_in_place (IPAddress : IP → Address) (ctx : Context) (s : State)
    (a : Nat) (X : List Nat)
    (hctx : ctx.Value (.session outboundSessionKey) = .outbound (some a))
    (hip : s.outboundIp = some X) (hX : X ≠ []) :
    (OutboundFromContext IPAddress ctx s).1 = .ok (some a) ∧
    ((OutboundFromContext IPAddress ctx s).2.outbounds a).Gateway = IPAddress (some X) ∧
    ((OutboundFromContext IPAddress ctx s).2.outbounds a).Target = (s.outbounds a).Target ∧
    (∀ b, b ≠ a → (OutboundFromContext IPAddress ctx s).2.outbounds b = s.outbounds b) ∧
    (OutboundFromContext IPAddress ctx s).2.outboundIp = s.outboundIp ∧
    (OutboundFromContext IPAddress ctx s).2.once = s.once ∧
    (OutboundFromContext IPAddress ctx s).2.contents = s.contents ∧
    (OutboundFromContext IPAddress ctx s).2.nextContent = s.nextContent ∧
    (OutboundFromContext IPAddress ctx s).2.submitted = s.submitted := by
  rw [OutboundFromContext_override IPAddress ctx s a X hctx hip hX]
  refine ⟨rfl, ?_, ?_, ?_, rfl, rfl, rfl, rfl, rfl⟩
  · simp [State.assignGateway, heapSet]
  · simp [State.assignGateway, heapSet]
  · intro b hb
    simp [State.assignGateway, heapSet, hb]

/-- Witness for the amended C8. -/
theorem outbound_extract_in_place_witness :
    (OutboundFromContext exampleIPAddress
        (ContextWithMuxPrefered (ContextWithOutbound .background (some 0)) true)
        (SetOutboundIp (some [10, 0, 0, 1]) exampleState)).1 = .ok (some 0) ∧
    ((OutboundFromContext exampleIPAddress
        (ContextWithMuxPrefered (ContextWithOutbound .background (some 0)) true)
        (SetOutboundIp (some [10, 0, 0, 1]) exampleState)).2.outbounds 0).Gateway
      = exampleIPAddress (some [10, 0, 0, 1]) :=
  ⟨(outbound_extract_in_place exampleIPAddress
      (ContextWithMuxPrefered (ContextWithOutbound .background (some 0)) true)
      (SetOutboundIp (some [10, 0, 0, 1]) exampleState) 0 [10, 0, 0, 1]
      (by decide) rfl (by decide)).1,
   (outbound_extract_in_place exampleIPAddress
      (ContextWithMuxPrefered (ContextWithOutbound .background (some 0)) true)
      (SetOutboundIp (some [10, 0, 0, 1]) exampleState) 0 [10, 0, 0, 1]
      (by decide) rfl (by decide)).2.1⟩

/-! ## Totality of the extractions -/

/-- The forced-outbound-tag read always returns: the receiver of `Attribute` is checked
against nil first. -/
theorem GetForcedOutboundTagFromContext_returns (ctx : Context) (s : State) :
    ∃ tag, GetForcedOutboundTagFromContext ctx s = .ok tag := by
  unfold GetForcedOutboundTagFromContext
  split
  · exact ⟨"", rfl⟩
  · rename_i hc
    cases hp : ContentFromContext ctx with
    | none => exact absurd hp hc
    | some a =>
      unfold Content.Attribute
      simp only
      split
      · exact ⟨_, rfl⟩
      · exact ⟨_, rfl⟩

/-- The Outbound accessor panics exactly when the nearest Outbound entry is a nil pointer while
a non-nil, non-empty override is in force; in every other case it returns. -/
theorem OutboundFromContext_panics_iff (IPAddress : IP → Address) (ctx : Context) (s : State) :
    (OutboundFromContext IPAddress ctx s).1 = .error .nilDereference ↔
      (ctx.Value (.session outboundSessionKey) = .outbound none ∧
        s.outboundIp ≠ none ∧ 0 < IP.len s.outboundIp) := by
  cases hv : ctx.Value (.session outboundSessionKey) with
  | outbound p =>
    by_cases hip : s.outboundIp ≠ none ∧ 0 < IP.len s.outboundIp
    · cases p with
      | none => simp [OutboundFromContext, hv, hip]
      | some a => simp [OutboundFromContext, hv, hip]
    · rw [OutboundFromContext_no_override IPAddress ctx s p hv hip]
      constructor
      · intro h; cases h
      · intro h; exact absurd h.2 hip
  | nil => simp [OutboundFromContext, hv]
  | id v => simp [OutboundFromContext, hv]
  | inbound p => simp [OutboundFromContext, hv]
  | content p => simp [OutboundFromContext, hv]
  | bool b => simp [OutboundFromContext, hv]
  | sockopt p => simp [OutboundFromContext, hv]
  | obj o => simp [OutboundFromContext, hv]

/-- C9, failing input: after `SetOutboundIp` with 127.0.0.1, the Outbound accessor on a handle
on which a nil descriptor was attached panics with a nil dereference instead of returning. -/
theorem outbound_extract_nil_panics :
    OutboundFromContext exampleIPAddress (ContextWithOutbound .background none)
        (SetOutboundIp (some [127, 0, 0, 1]) exampleState)
      = (.error .nilDereference, SetOutboundIp (some [127, 0, 0, 1]) exampleState) := by
  rfl

/-! ## Repeated extraction -/

/-- C10: repeated Outbound extraction is idempotent.  For every handle and every state (so every
override), the second of two successive calls has the same outcome as the first (the same
pointer, hence the same descriptor with the same gateway and target; where the first call
panics, so does the second) and leaves the whole state, the override included, as the first
call left it. -/
theorem outbound_extract_idempotent (IPAddress : IP → Address) (ctx : Context) (s : State) :
    (OutboundFromContext IPAddress ctx (OutboundFromContext IPAddress ctx s).2).1
      = (OutboundFromContext IPAddress ctx s).1 ∧
    (OutboundFromContext IPAddress ctx (OutboundFromContext IPAddress ctx s).2).2
      = (OutboundFromContext IPAddress ctx s).2 := by
  cases hv : ctx.Value (.session outboundSessionKey) with
  | outbound p =>
    by_cases hip : s.outboundIp ≠ none ∧ 0 < IP.len s.outboundIp
    · cases p with
      | none => simp [OutboundFromContext, hv, hip]
      | some a =>
        cases hX : s.outboundIp with
        | none => exact absurd hX hip.1
        | some X =>
          have hne : X ≠ [] := by
            have hl := hip.2
            rw [hX] at hl
            exact List.length_pos.mp hl
          rw [OutboundFromContext_override IPAddress ctx s a X hv hX hne]
          simp only []
          rw [OutboundFromContext_override IPAddress ctx
            (s.assignGateway a (IPAddress (some X))) a X hv hX hne]
          refine ⟨rfl, ?_⟩
          ext1 <;> try rfl
          funext b
          by_cases hb : b = a
          · subst hb; simp [State.assignGateway, heapSet]
          · simp [State.assignGateway, heapSet, hb]
    · have h1 := OutboundFromContext_no_override IPAddress ctx s p hv hip
      rw [h1]
      exact ⟨by rw [h1], by rw [h1]⟩
  | nil => simp [OutboundFromContext, hv]
  | id v => simp [OutboundFromContext, hv]
  | inbound p => simp [OutboundFromContext, hv]
  | content p => simp [OutboundFromContext, hv]
  | bool b => simp [OutboundFromContext, hv]
  | sockopt p => simp [OutboundFromContext, hv]
  | obj o => simp [OutboundFromContext, hv]

/-! ## Attaching leaves the input handle alone -/

/-- Every attach function is one `withValue` entry with the key of its facet and its value. -/
theorem Attachment.apply_eq_withValue (a : Attachment) (ctx : Context) :
    a.apply ctx = .withValue ctx a.facet.key a.val := by
  cases a <;> rfl

/-- Allocating a context object does not change what a valid handle stands for. -/
theorem Memory.context_cons (m : Memory) (nd : Node) (g : Handle) (hg : m.valid g = true) :
    Memory.context (nd :: m) g = Memory.context m g := by
  cases g with
  | none => cases m <;> rfl
  | some i =>
    have hi : i ≠ m.length := Nat.ne_of_lt (by simpa [Memory.valid] using hg)
    simp only [Memory.context, hi, if_false]

/-- The handle returned by an attach function in memory stands for the chain the attach
function builds over the chain of the parent. -/
theorem Attachment.context_applyIn (a : Attachment) (parent : Handle) (m : Memory) :
    (a.applyIn parent m).2.context (a.applyIn parent m).1 = a.apply (m.context parent) := by
  simp [Attachment.applyIn, Memory.WithValue, Memory.context, Attachment.apply_eq_withValue]

/-- C4: attaching a facet never changes the input handle.  For every memory, every valid handle
`h` and every attachment, the memory after the attach reads `h` as the same chain as before, so
each extraction from `h` (Outbound in every state, the forced outbound tag and the error
submission included) gives the same result after the attach as before it; the new handle is
the attachment over that chain. -/
theorem attach_leaves_input_handle (IPAddress : IP → Address) (m : Memory) (h : Handle)
    (hh : m.valid h = true) (a : Attachment) (s : State) (err : GoError) :
    (a.applyIn h m).2.context h = m.context h ∧
    (a.applyIn h m).2.context (a.applyIn h m).1 = a.apply (m.context h) ∧
    IDFromContext ((a.applyIn h m).2.context h) = IDFromContext (m.context h) ∧
    InboundFromContext ((a.applyIn h m).2.context h) = InboundFromContext (m.context h) ∧
    OutboundFromContext IPAddress ((a.applyIn h m).2.context h) s
      = OutboundFromContext IPAddress (m.context h) s ∧
    ContentFromContext ((a.applyIn h m).2.context h) = ContentFromContext (m.context h) ∧
    MuxPreferedFromContext ((a.applyIn h m).2.context h) = MuxPreferedFromContext (m.context h) ∧
    SockoptFromContext ((a.applyIn h m).2.context h) = SockoptFromContext (m.context h) ∧
    DispatcherFromContext ((a.applyIn h m).2.context h) = DispatcherFromContext (m.context h) ∧
    GetForcedOutboundTagFromContext ((a.applyIn h m).2.context h) s
      = GetForcedOutboundTagFromContext (m.context h) s ∧
    SubmitOutboundErrorToOriginator ((a.applyIn h m).2.context h) err s
      = SubmitOutboundErrorToOriginator (m.context h) err s := by
  have hctx : (a.applyIn h m).2.context h = m.context h :=
    Memory.context_cons m _ h hh
  refine ⟨hctx, a.context_applyIn h m, ?_, ?_, ?_, ?_, ?_, ?_, ?_, ?_, ?_⟩ <;> rw [hctx]

/-- Witness for C4: an identifier 9 attached to handle 0, which carries the identifier 7; the
input handle still reads 7 and the new handle reads 9. -/
theorem attach_leaves_input_handle_witness :
    IDFromContext (((Attachment.identifier 9).applyIn (some 0)
        [.value none (.session idSessionKey) (.id 7)]).2.context (some 0)) = 7 ∧
    IDFromContext (((Attachment.identifier 9).applyIn (some 0)
        [.value none (.session idSessionKey) (.id 7)]).2.context
        ((Attachment.identifier 9).applyIn (some 0)
          [.value none (.session idSessionKey) (.id 7)]).1) = 9 :=
  ⟨((attach_leaves_input_handle exampleIPAddress [.value none (.session idSessionKey) (.id 7)]
      (some 0) (by decide) (.identifier 9) exampleState none).2.2.1).trans (by decide),
   (congrArg IDFromContext (attach_leaves_input_handle exampleIPAddress
      [.value none (.session idSessionKey) (.id 7)]
      (some 0) (by decide) (.identifier 9) exampleState none).2.1).trans (by decide)⟩

/-! ## Forced outbound tag -/

theorem ContentFromContext_ContextWithContent (ctx : Context) (p : Ptr) :
    ContentFromContext (ContextWithContent ctx p) = p := by
  simp [ContentFromContext, ContextWithContent, Context.Value]

/-- Reading an attribute right after writing it, through the same non-nil pointer, returns the
value written. -/
theorem Content.Attribute_SetAttribute (a : Nat) (name value : String) (s : State) :
    Content.Attribute (some a) name (Content.SetAttribute (some a) name value s).2
      = .ok value := by
  simp [Content.Attribute, Content.SetAttribute, heapSet, List.lookup]

/-- The tag write on a handle without a (non-nil) Content: a new Content object is allocated
and attached, and the tag is stored in it. -/
theorem SetForcedOutboundTagToContext_of_none (ctx : Context) (tag : String) (s : State)
    (hc : ContentFromContext ctx = none) :
    SetForcedOutboundTagToContext ctx tag s
      = (.ok (ContextWithContent ctx (some s.nextContent)),
          (Content.SetAttribute (some s.nextContent) "forcedOutboundTag" tag (newContent s).2).2) := by
  simp [SetForcedOutboundTagToContext, hc, newContent, ContentFromContext_ContextWithContent,
    Content.SetAttribute]

/-- The tag write on a handle with the Content object at `c`: the handle is returned as it
is, and the tag is stored in that object. -/
theorem SetForcedOutboundTagToContext_of_some (ctx : Context) (tag : String) (s : State)
    (c : Nat) (hc : ContentFromContext ctx = some c) :
    SetForcedOutboundTagToContext ctx tag s
      = (.ok ctx, (Content.SetAttribute (some c) "forcedOutboundTag" tag s).2) := by
  simp [SetForcedOutboundTagToContext, hc, Content.SetAttribute]

/-- The tag read on a handle with the Content object at `c` is the attribute read on it. -/
theorem GetForcedOutboundTagFromContext_of_some (ctx : Context) (s : State) (c : Nat)
    (hc : ContentFromContext ctx = some c) :
    GetForcedOutboundTagFromContext ctx s = Content.Attribute (some c) "forcedOutboundTag" s := by
  simp [GetForcedOutboundTagFromContext, hc]

theorem GetForcedOutboundTagFromContext_of_none (ctx : Context) (s : State)
    (hc : ContentFromContext ctx = none) :
    GetForcedOutboundTagFromContext ctx s = .ok "" := by
  simp [GetForcedOutboundTagFromContext, hc]

/-- The tag write always returns, and the tag read on the handle it returns gives the tag. -/
theorem SetForcedOutboundTagToContext_get (h : Context) (tag : String) (s : State) :
    ∃ h1 s1, SetForcedOutboundTagToContext h tag s = (.ok h1, s1) ∧
      GetForcedOutboundTagFromContext h1 s1 = .ok tag := by
  cases hc : ContentFromContext h with
  | none =>
    refine ⟨_, _, SetForcedOutboundTagToContext_of_none h tag s hc, ?_⟩
    rw [GetForcedOutboundTagFromContext_of_some _ _ s.nextContent
      (ContentFromContext_ContextWithContent h _)]
    exact Content.Attribute_SetAttribute _ _ _ _
  | some c =>
    refine ⟨_, _, SetForcedOutboundTagToContext_of_some h tag s c hc, ?_⟩
    rw [GetForcedOutboundTagFromContext_of_some _ _ c hc]
    exact Content.Attribute_SetAttribute _ _ _ _

/-- C11: for every handle `h`, with or without a Content facet or an earlier tag, every state
and every tag, the tag write returns a handle on which the tag read gives exactly that tag; and
a write of `tagA` followed by a write of `tagB` on the handle returned reads back exactly
`tagB`. -/
theorem forced_tag_set_then_get (h : Context) (tag tagA tagB : String) (s : State) :
    (∃ h1 s1, SetForcedOutboundTagToContext h tag s = (.ok h1, s1) ∧
      GetForcedOutboundTagFromContext h1 s1 = .ok tag) ∧
    (∃ h2 s2 h3 s3, SetForcedOutboundTagToContext h tagA s = (.ok h2, s2) ∧
      SetForcedOutboundTagToContext h2 tagB s2 = (.ok h3, s3) ∧
      GetForcedOutboundTagFromContext h3 s3 = .ok tagB) := by
  refine ⟨SetForcedOutboundTagToContext_get h tag s, ?_⟩
  obtain ⟨h2, s2, hset, _⟩ := SetForcedOutboundTagToContext_get h tagA s
  obtain ⟨h3, s3, hset2, hget⟩ := SetForcedOutboundTagToContext_get h2 tagB s2
  exact ⟨h2, s2, h3, s3, hset, hset2, hget⟩

/-- C12: the tag read returns the empty string on every handle with no entry under the Content
key, on every handle whose Content object has no `forcedOutboundTag` attribute (backing map nil,
or created without that key), and on a handle to which a freshly allocated empty Content was
just attached. -/
theorem forced_tag_absent (ctx : Context) (s : State) :
    (ctx.hasKey (.session contentSessionKey) = false →
      GetForcedOutboundTagFromContext ctx s = .ok "") ∧
    (∀ c : Nat, ContentFromContext ctx = some c →
      (∀ m, (s.contents c).Attributes = some m → m.lookup "forcedOutboundTag" = none) →
      GetForcedOutboundTagFromContext ctx s = .ok "") ∧
    GetForcedOutboundTagFromContext (ContextWithContent ctx (some (newContent s).1))
      (newContent s).2 = .ok "" := by
  refine ⟨?_, ?_, ?_⟩
  · intro hk
    apply GetForcedOutboundTagFromContext_of_none
    simp [ContentFromContext, Context.value_of_hasKey_false ctx _ hk]
  · intro c hc hm
    rw [GetForcedOutboundTagFromContext_of_some ctx s c hc]
    cases hattr : (s.contents c).Attributes with
    | none => simp [Content.Attribute, hattr]
    | some m => simp [Content.Attribute, hattr, hm m hattr]
  · rw [GetForcedOutboundTagFromContext_of_some _ _ _ (ContentFromContext_ContextWithContent _ _)]
    simp [Content.Attribute, newContent, heapSet]

/-- Witness for C12: the background handle, and a handle whose Content object holds only a
`protocol` attribute. -/
theorem forced_tag_absent_witness :
    GetForcedOutboundTagFromContext .background exampleState = .ok "" ∧
    GetForcedOutboundTagFromContext (ContextWithContent .background (some 2))
      { exampleState with contents := fun _ => ⟨some [("protocol", "tls")]⟩ } = .ok "" :=
  ⟨(forced_tag_absent .background exampleState).1 (by decide),
   (forced_tag_absent (ContextWithContent .background (some 2))
      { exampleState with contents := fun _ => ⟨some [("protocol", "tls")]⟩ }).2.1 2
      (by decide) (by intro m hm; cases hm; decide)⟩

/-- C13: the tag write attaches a Content facet exactly when the handle has none.  If the
Content read on `h` gives nil, the handle returned is `h` with a newly allocated Content object
attached, the allocator has advanced, and `h` itself still has none, so the tag read on `h`
still gives the empty string.  If `h` has the Content object `c`, the handle returned is `h`
itself, its Content is still `c`, and nothing was allocated. -/
theorem forced_tag_attaches_when_absent (h : Context) (tag : String) (s : State) :
    (ContentFromContext h = none →
      (SetForcedOutboundTagToContext h tag s).1
          = .ok (ContextWithContent h (some s.nextContent)) ∧
      ContentFromContext (ContextWithContent h (some s.nextContent)) = some s.nextContent ∧
      (SetForcedOutboundTagToContext h tag s).2.nextContent = s.nextContent + 1 ∧
      ContentFromContext h = none ∧
      GetForcedOutboundTagFromContext h (SetForcedOutboundTagToContext h tag s).2 = .ok "") ∧
    (∀ c : Nat, ContentFromContext h = some c →
      (SetForcedOutboundTagToContext h tag s).1 = .ok h ∧
      ContentFromContext h = some c ∧
      (SetForcedOutboundTagToContext h tag s).2.nextContent = s.nextContent) := by
  refine ⟨?_, ?_⟩
  · intro hc
    rw [SetForcedOutboundTagToContext_of_none h tag s hc]
    refine ⟨rfl, ContentFromContext_ContextWithContent _ _, ?_, hc,
      GetForcedOutboundTagFromContext_of_none _ _ hc⟩
    simp [Content.SetAttribute, newContent]
  · intro c hc
    rw [SetForcedOutboundTagToContext_of_some h tag s c hc]
    refine ⟨rfl, hc, ?_⟩
    simp [Content.SetAttribute]

/-- Witness for C13: the background handle (no Content), and a handle with the Content at 2. -/
theorem forced_tag_attaches_when_absent_witness :
    (SetForcedOutboundTagToContext .background "direct" exampleState).1
        = .ok (ContextWithContent .background (some exampleState.nextContent)) ∧
    (SetForcedOutboundTagToContext (ContextWithContent .background (some 2)) "direct"
        exampleState).1 = .ok (ContextWithContent .background (some 2)) :=
  ⟨((forced_tag_attaches_when_absent .background "direct" exampleState).1 (by decide)).1,
   ((forced_tag_attaches_when_absent (ContextWithContent .background (some 2)) "direct"
      exampleState).2 2 (by decide)).1⟩

/-! ## Chains of attachments -/

/-- Attachments of other facets leave the lookup under the key of a facet as it was. -/
theorem Attachment.value_applyAll_of_ne (as : List Attachment) (f : Facet)
    (hne : ∀ a ∈ as, a.facet ≠ f) (ctx : Context) :
    (Attachment.applyAll as ctx).Value f.key = ctx.Value f.key := by
  induction as generalizing ctx with
  | nil => rfl
  | cons a as ih =>
    have h1 : Attachment.applyAll (a :: as) ctx = Attachment.applyAll as (a.apply ctx) := rfl
    rw [h1, ih (fun b hb => hne b (List.mem_cons_of_mem a hb)),
      a.value_apply_of_ne f (hne a (List.mem_cons_self a as))]

/-- C14: the Content facet is one shared object along the chain.  For every handle `h` whose
Content is the object `c` and every handle `h'` obtained from `h` by attachments of facets
other than Content, the Content of `h'` is `c`; the tag write through `h'` returns `h'` itself
and the tag it stored is read back through `h`. -/
theorem content_shared_along_chain (h : Context) (c : Nat) (as : List Attachment)
    (tag : String) (s : State) (hc : ContentFromContext h = some c)
    (has : ∀ a ∈ as, a.facet ≠ .content) :
    ContentFromContext (Attachment.applyAll as h) = some c ∧
    (SetForcedOutboundTagToContext (Attachment.applyAll as h) tag s).1
      = .ok (Attachment.applyAll as h) ∧
    GetForcedOutboundTagFromContext h
      (SetForcedOutboundTagToContext (Attachment.applyAll as h) tag s).2 = .ok tag := by
  have hv := Attachment.value_applyAll_of_ne as .content has h
  simp only [Facet.key] at hv
  have hc' : ContentFromContext (Attachment.applyAll as h) = some c := by
    rw [ContentFromContext, hv]
    exact hc
  rw [SetForcedOutboundTagToContext_of_some _ tag s c hc']
  refine ⟨hc', rfl, ?_⟩
  rw [GetForcedOutboundTagFromContext_of_some h _ c hc]
  exact Content.Attribute_SetAttribute _ _ _ _

/-- Witness for C14: a mux preference and an identifier attached over a handle with the Content
at address 2. -/
theorem content_shared_along_chain_witness :
    ContentFromContext (Attachment.applyAll [.muxPrefered true, .identifier 5]
      (ContextWithContent .background (some 2))) = some 2 ∧
    GetForcedOutboundTagFromContext (ContextWithContent .background (some 2))
      (SetForcedOutboundTagToContext (Attachment.applyAll [.muxPrefered true, .identifier 5]
        (ContextWithContent .background (some 2))) "direct" exampleState).2 = .ok "direct" :=
  ⟨(content_shared_along_chain (ContextWithContent .background (some 2)) 2
      [.muxPrefered true, .identifier 5] "direct" exampleState (by decide) (by decide)).1,
   (content_shared_along_chain (ContextWithContent .background (some 2)) 2
      [.muxPrefered true, .identifier 5] "direct" exampleState (by decide) (by decide)).2.2⟩

/-! ## Error feedback -/

/-- C15: on a handle on which the sink `S` was attached with `TrackedConnectionError` and then
only facets other than the error feedback were attached (so no later sink shadows `S`), the
submit operation returns and makes exactly one call of `SubmitError`, on `S` and with exactly
`err`: the call log grows by that one entry and nothing else in the state changes. -/
theorem submit_calls_attached_sink (h0 : Context) (S : { o : Obj // o.hasSubmitError = true })
    (as : List Attachment) (err : GoError) (s : State)
    (has : ∀ a ∈ as, a.facet ≠ .errorFeedback) :
    SubmitOutboundErrorToOriginator
        (Attachment.applyAll as (TrackedConnectionError h0 (some S))) err s
      = (.ok (), { s with submitted := s.submitted ++ [(S.1, err)] }) := by
  have hv := Attachment.value_applyAll_of_ne as .errorFeedback has
    (TrackedConnectionError h0 (some S))
  simp only [Facet.key] at hv
  obtain ⟨o, ho⟩ := S
  rw [SubmitOutboundErrorToOriginator, hv]
  simp [TrackedConnectionError, Context.Value, Any.ofFeedback, ho]

/-- Witness for C15: sink 1, then a mux preference and a dispatcher attached. -/
theorem submit_calls_attached_sink_witness :
    SubmitOutboundErrorToOriginator
        (Attachment.applyAll [.muxPrefered true, .dispatcher none]
          (TrackedConnectionError .background (some ⟨⟨1, true, false⟩, rfl⟩)))
        (some "dial failed") exampleState
      = (.ok (), { exampleState with
          submitted := exampleState.submitted ++ [(⟨1, true, false⟩, some "dial failed")] }) :=
  submit_calls_attached_sink .background ⟨⟨1, true, false⟩, rfl⟩
    [.muxPrefered true, .dispatcher none] (some "dial failed") exampleState (by decide)

/-- C16: on a handle with no entry under the error feedback key, whatever else it carries, the
submit operation returns without calling any sink and leaves the whole state as it was: call
log, package variables (the override included), descriptors and contents. -/
theorem submit_without_sink (h : Context) (err : GoError) (s : State)
    (hk : h.hasKey (.session trackedConnectionErrorKey) = false) :
    SubmitOutboundErrorToOriginator h err s = (.ok (), s) := by
  simp [SubmitOutboundErrorToOriginator, Context.value_of_hasKey_false h _ hk]

/-- Witness for C16: a handle with an identifier, a Content and a foreign entry. -/
theorem submit_without_sink_witness :
    SubmitOutboundErrorToOriginator
        (ContextWithContent (ContextWithID (.withValue .background (.foreign 3) (.bool true)) 7)
          (some 2))
        (some "dial failed") exampleState = (.ok (), exampleState) :=
  submit_without_sink _ (some "dial failed") exampleState (by decide)

/-- The submit operation returns (its type assertion succeeds) whenever the value under the
error feedback key is nil or implements `TrackedRequestErrorFeedback`. -/
theorem SubmitOutboundErrorToOriginator_ok (ctx : Context) (err : GoError) (s : State)
    (hv : (ctx.Value (.session trackedConnectionErrorKey)).isFeedbackOrNil = true) :
    (SubmitOutboundErrorToOriginator ctx err s).1 = .ok () := by
  unfold SubmitOutboundErrorToOriginator
  cases hval : ctx.Value (.session trackedConnectionErrorKey) with
  | nil => rfl
  | obj o =>
    rw [hval] at hv
    have ho : o.hasSubmitError = true := hv
    simp [ho]
  | id v => rw [hval] at hv; cases hv
  | inbound p => rw [hval] at hv; cases hv
  | outbound p => rw [hval] at hv; cases hv
  | content p => rw [hval] at hv; cases hv
  | bool b => rw [hval] at hv; cases hv
  | sockopt p => rw [hval] at hv; cases hv

/-- What an attach function stores under the error feedback key is nil or a feedback sink. -/
theorem Attachment.feedback_apply (a : Attachment) (ctx : Context)
    (hv : (ctx.Value (.session trackedConnectionErrorKey)).isFeedbackOrNil = true) :
    ((a.apply ctx).Value (.session trackedConnectionErrorKey)).isFeedbackOrNil = true := by
  by_cases hf : a.facet = .errorFeedback
  · cases a with
    | errorFeedback t =>
      cases t with
      | none => simp [Attachment.apply, TrackedConnectionError, Context.Value, Any.ofFeedback,
          Any.isFeedbackOrNil]
      | some o =>
        obtain ⟨o, ho⟩ := o
        simp [Attachment.apply, TrackedConnectionError, Context.Value, Any.ofFeedback,
          Any.isFeedbackOrNil, ho]
    | identifier v => cases hf
    | inbound p => cases hf
    | outbound p => cases hf
    | content p => cases hf
    | muxPrefered b => cases hf
    | sockopt p => cases hf
    | dispatcher d => cases hf
  · have h1 := a.value_apply_of_ne .errorFeedback hf ctx
    simp only [Facet.key] at h1
    rw [h1]
    exact hv

/-- Every step keeps the value under the error feedback key nil or a feedback sink. -/
theorem BuildStep.feedback_run (st : BuildStep) (cs : Context × State)
    (hv : (cs.1.Value (.session trackedConnectionErrorKey)).isFeedbackOrNil = true) :
    (((st.run cs).1).Value (.session trackedConnectionErrorKey)).isFeedbackOrNil = true := by
  obtain ⟨ctx, s⟩ := cs
  cases st with
  | attach a => exact a.feedback_apply ctx hv
  | setForcedOutboundTag tag =>
    cases hc : ContentFromContext ctx with
    | none =>
      simp only [BuildStep.run, SetForcedOutboundTagToContext_of_none ctx tag s hc]
      exact (Attachment.content (some s.nextContent)).feedback_apply ctx hv
    | some c =>
      simp only [BuildStep.run, SetForcedOutboundTagToContext_of_some ctx tag s c hc]
      exact hv
  | derive => exact hv
  | foreignValue tag val =>
    simp only [BuildStep.run, Context.Value]
    rw [if_neg (by intro h; cases h)]
    exact hv

theorem BuildStep.feedback_runAll (steps : List BuildStep) (cs : Context × State)
    (hv : (cs.1.Value (.session trackedConnectionErrorKey)).isFeedbackOrNil = true) :
    (((BuildStep.runAll steps cs).1).Value (.session trackedConnectionErrorKey)).isFeedbackOrNil
      = true := by
  induction steps generalizing cs with
  | nil => exact hv
  | cons st steps ih =>
    have h1 : BuildStep.runAll (st :: steps) cs = BuildStep.runAll steps (st.run cs) := rfl
    rw [h1]
    exact ih _ (st.feedback_run cs hv)

/-- C19: the type assertion of the submit operation never fails on a handle of the package.
For every base handle with no entry under the error feedback key and every sequence of steps
(attach functions, tag writes, derivations without a value, values of other packages), the value
stored under the error feedback key of the resulting handle is nil or implements
`TrackedRequestErrorFeedback`, and the submit operation returns on it, in every state. -/
theorem submit_assertion_never_fails (base : Context) (steps : List BuildStep)
    (s0 s : State) (err : GoError)
    (hbase : base.hasKey (.session trackedConnectionErrorKey) = false) :
    (((BuildStep.runAll steps (base, s0)).1).Value
        (.session trackedConnectionErrorKey)).isFeedbackOrNil = true ∧
    (SubmitOutboundErrorToOriginator (BuildStep.runAll steps (base, s0)).1 err s).1 = .ok () ∧
    (SubmitOutboundErrorToOriginator (BuildStep.runAll steps (base, s0)).1 err s).1
      ≠ .error .typeAssertion := by
  have hv0 : (base.Value (.session trackedConnectionErrorKey)).isFeedbackOrNil = true := by
    rw [Context.value_of_hasKey_false base _ hbase]
    rfl
  have hv := BuildStep.feedback_runAll steps (base, s0) hv0
  have hok := SubmitOutboundErrorToOriginator_ok _ err s hv
  refine ⟨hv, hok, ?_⟩
  rw [hok]
  intro h
  cases h

/-- Witness for C19: a sink, a tag write, an Inbound with a nil descriptor and a derivation over
the background handle. -/
theorem submit_assertion_never_fails_witness :
    (SubmitOutboundErrorToOriginator
      (BuildStep.runAll
        [.attach (.errorFeedback (some ⟨⟨1, true, false⟩, rfl⟩)), .setForcedOutboundTag "direct",
          .attach (.inbound none), .derive]
        (.background, exampleState)).1
      (some "dial failed") exampleState).1 = .ok () :=
  (submit_assertion_never_fails .background
    [.attach (.errorFeedback (some ⟨⟨1, true, false⟩, rfl⟩)), .setForcedOutboundTag "direct",
      .attach (.inbound none), .derive]
    exampleState exampleState (some "dial failed") (by decide)).2.1

/-! ## An empty override -/

/-- C18: a first call of `SetOutboundIp` with a nil or zero-length slice consumes the one write
and is read as unset.  After it, and after any later calls `ys` whatever they pass, `once` has
fired, the stored override is still that empty slice, and the Outbound accessor returns the
pointer attached (every descriptor with the gateway it had) without writing anything. -/
theorem empty_override_never_effective (IPAddress : IP → Address) (s : State) (ip : IP)
    (ys : List IP) (hfirst : s.once = false) (hip : IP.len ip = 0) :
    (ys.foldl (fun st y => SetOutboundIp y st) (SetOutboundIp ip s)).once = true ∧
    (ys.foldl (fun st y => SetOutboundIp y st) (SetOutboundIp ip s)).outboundIp = ip ∧
    (ys.foldl (fun st y => SetOutboundIp y st) (SetOutboundIp ip s)).outbounds = s.outbounds ∧
    (∀ (h : Context) (p : Ptr),
      OutboundFromContext IPAddress (ContextWithOutbound h p)
          (ys.foldl (fun st y => SetOutboundIp y st) (SetOutboundIp ip s))
        = (.ok p, ys.foldl (fun st y => SetOutboundIp y st) (SetOutboundIp ip s))) := by
  have honce := SetOutboundIp_once ip s
  rw [SetOutboundIp_foldl_of_once ys _ honce]
  have hset : (SetOutboundIp ip s).outboundIp = ip := by simp [SetOutboundIp, hfirst]
  have hout : (SetOutboundIp ip s).outbounds = s.outbounds := by simp [SetOutboundIp, hfirst]
  refine ⟨honce, hset, hout, ?_⟩
  intro h p
  apply OutboundFromContext_no_override
  · simp [ContextWithOutbound, Context.Value]
  · rw [hset, hip]
    simp

/-- Witness for C18: a first call with the empty slice, then a call with 10.0.0.9; the
descriptor at address 3 is returned with its own gateway. -/
theorem empty_override_never_effective_witness :
    (OutboundFromContext exampleIPAddress (ContextWithOutbound .background (some 3))
        ([some [10, 0, 0, 9]].foldl (fun st y => SetOutboundIp y st)
          (SetOutboundIp (some []) exampleState))).1 = .ok (some 3) ∧
    (([some [10, 0, 0, 9]].foldl (fun st y => SetOutboundIp y st)
        (SetOutboundIp (some []) exampleState)).outbounds 3).Gateway = .ip [192, 168, 0, 1] :=
  ⟨congrArg Prod.fst ((empty_override_never_effective exampleIPAddress exampleState (some [])
      [some [10, 0, 0, 9]] rfl rfl).2.2.2 .background (some 3)),
   (congrFun (empty_override_never_effective exampleIPAddress exampleState (some [])
      [some [10, 0, 0, 9]] rfl rfl).2.2.1 3 ▸ rfl)⟩

end Session
